import Mathlib

/-!
Verification development for the Skillwise inventory-management backend.

The embedding models the SQLite-backed data layer and the Express route
handlers for products (src/unnamed/part_000), history/summary
(src/unnamed/part_001), CSV import/export (src/backend/routes/import.js)
and the express-validator rule sets, over explicit list-of-rows states.
SQL timestamps are abstracted as natural numbers supplied by the caller
(the code uses CURRENT_TIMESTAMP / datetime clauses); JavaScript
truthiness on request-body fields is modelled explicitly (`x || null`
turns an empty string into NULL).
-/

/-- Row of the `products` table (schema.sql): nullable TEXT columns are
`Option String`, `stock INTEGER NOT NULL` is a `Nat` (route validation
rejects negative stock), timestamps are abstract `Nat` instants. -/
structure Product where
  id : Nat
  name : String
  unit : Option String
  category : Option String
  brand : Option String
  stock : Nat
  status : String
  image : Option String
  created_at : Nat
  updated_at : Nat
deriving Repr, DecidableEq

/-- Row of the `inventory_history` table (schema.sql). `change_amount`
is an `Int` since stock decreases produce negative amounts; `user_info`
is never set by the routes, hence `Option String`. -/
structure HistoryEntry where
  product_id : Nat
  old_quantity : Nat
  new_quantity : Nat
  change_amount : Int
  change_date : Nat
  user_info : Option String
  reason : String
deriving Repr, DecidableEq

/-- Database state: the two tables plus the AUTOINCREMENT counter that
produces `lastID` for product INSERTs. Rows are kept in insertion
order, matching rowid order in the SQLite file. -/
structure DB where
  products : List Product
  history : List HistoryEntry
  nextId : Nat
deriving Repr, DecidableEq

/-- Error outcomes surfaced by the routes as non-2xx JSON responses. -/
inductive ApiError where
  | duplicateName
  | notFound
  | validationError
deriving Repr, DecidableEq

/-- HTTP status the routes attach to each error: 409 for the
duplicate-name conflict, 404 for a missing product, 400 from the
`validate` middleware. -/
def ApiError.statusCode : ApiError → Nat
  | .duplicateName => 409
  | .notFound => 404
  | .validationError => 400

/-- JavaScript `x || null` applied to an optional string body field: an
absent field stays NULL, and a supplied empty string (falsy) also
becomes NULL. -/
def jsOrNull : Option String → Option String
  | none => none
  | some s => if s = "" then none else some s

/-- JavaScript `x || d` with a string default, as in `status || 'active'`. -/
def jsOrDefault (v : Option String) (d : String) : String :=
  match v with
  | none => d
  | some s => if s = "" then d else s

/-- JavaScript truthiness of an optional string. -/
def jsTruthy : Option String → Bool
  | none => false
  | some s => s ≠ ""

/-- SELECT * FROM products WHERE id = ? — `db.get` returns the first
matching row or undefined. -/
def getProduct (db : DB) (id : Nat) : Option Product :=
  db.products.find? (fun p => p.id == id)

/-- SELECT id FROM products WHERE name = ? — duplicate-name probe used
by the create route and the CSV importer (exact, case-sensitive match
in this model). -/
def findByName (db : DB) (name : String) : Option Product :=
  db.products.find? (fun p => p.name == name)

/-- Request body of POST /products after validation: `name` and `stock`
are required (stock a non-negative integer), the rest optional. -/
structure CreateInput where
  name : String
  unit : Option String
  category : Option String
  brand : Option String
  stock : Nat
  status : Option String
  image : Option String
deriving Repr, DecidableEq

/-- The initial-stock history row inserted by POST /products:
old_quantity 0, new_quantity = stock, change_amount = stock, reason
"Initial stock", user_info left NULL. -/
def initialHistoryRow (id stock now : Nat) : HistoryEntry :=
  { product_id := id, old_quantity := 0, new_quantity := stock,
    change_amount := (stock : Int), change_date := now,
    user_info := none, reason := "Initial stock" }

/-- POST /products handler (part_000 lines 114-164): reject a duplicate
name with 409; otherwise INSERT the product (optional fields via
`x || null`, `status || 'active'`), INSERT the initial-stock history
row, and re-SELECT the new row by `result.id`. -/
def createProduct (db : DB) (now : Nat) (inp : CreateInput) :
    Except ApiError (DB × Option Product) :=
  if (findByName db inp.name).isSome then
    .error .duplicateName
  else
    let p : Product :=
      { id := db.nextId, name := inp.name, unit := jsOrNull inp.unit,
        category := jsOrNull inp.category, brand := jsOrNull inp.brand,
        stock := inp.stock, status := jsOrDefault inp.status "active",
        image := jsOrNull inp.image, created_at := now, updated_at := now }
    let db' : DB :=
      { products := db.products ++ [p],
        history := db.history ++ [initialHistoryRow db.nextId inp.stock now],
        nextId := db.nextId + 1 }
    .ok (db', getProduct db' db.nextId)

/-- Request body of PUT /products/:id — every field optional; absent
fields are `none`. `stock !== undefined` is presence of the option. -/
structure UpdateInput where
  name : Option String
  unit : Option String
  category : Option String
  brand : Option String
  stock : Option Nat
  status : Option String
  image : Option String
deriving Repr, DecidableEq

/-- SQL COALESCE(?, col) for a nullable column: a NULL parameter keeps
the stored value (which may itself be NULL). -/
def coalesceOpt (v stored : Option String) : Option String :=
  match v with
  | some s => some s
  | none => stored

/-- The UPDATE statement of PUT /products/:id applied to one row: the
bound parameters are `field || null` for the string fields and
`stock !== undefined ? stock : null` for stock, each wrapped in
COALESCE with the row's stored value; updated_at is refreshed. -/
def mergeRow (inp : UpdateInput) (now : Nat) (p : Product) : Product :=
  { p with
    name := jsOrDefault inp.name p.name,
    unit := coalesceOpt (jsOrNull inp.unit) p.unit,
    category := coalesceOpt (jsOrNull inp.category) p.category,
    brand := coalesceOpt (jsOrNull inp.brand) p.brand,
    stock := inp.stock.getD p.stock,
    status := jsOrDefault inp.status p.status,
    image := coalesceOpt (jsOrNull inp.image) p.image,
    updated_at := now }

/-- The "Manual update" history row of PUT /products/:id: old = current
stock, new = supplied stock, change_amount = their difference. -/
def manualHistoryRow (id oldQ newQ now : Nat) : HistoryEntry :=
  { product_id := id, old_quantity := oldQ, new_quantity := newQ,
    change_amount := (newQ : Int) - (oldQ : Int), change_date := now,
    user_info := none, reason := "Manual update" }

/-- The duplicate-name guard of PUT /products/:id:
`if (name && name !== currentProduct.name)` then probe
`SELECT id FROM products WHERE name = ? AND id != ?`. -/
def updateNameConflict (db : DB) (id : Nat) (cur : Product)
    (name : Option String) : Bool :=
  match name with
  | none => false
  | some n =>
    if n ≠ "" ∧ n ≠ cur.name then
      (db.products.find? (fun p => p.name == n && p.id != id)).isSome
    else false

/-- PUT /products/:id handler (part_000 lines 167-241): 404 when the id
is absent, 409 on a name collision with a different product, otherwise
append the "Manual update" history row when stock is supplied and
differs from the current stock, run the COALESCE UPDATE, and re-SELECT
the row. -/
def updateProduct (db : DB) (now id : Nat) (inp : UpdateInput) :
    Except ApiError (DB × Option Product) :=
  match getProduct db id with
  | none => .error .notFound
  | some cur =>
    if updateNameConflict db id cur inp.name then
      .error .duplicateName
    else
      let history' :=
        match inp.stock with
        | some v =>
          if v ≠ cur.stock then
            db.history ++ [manualHistoryRow id cur.stock v now]
          else db.history
        | none => db.history
      let db' : DB :=
        { products :=
            db.products.map (fun p => if p.id == id then mergeRow inp now p else p),
          history := history', nextId := db.nextId }
      .ok (db', getProduct db' id)

/-- SQLite `name LIKE '%pat%'` (case-insensitive for ASCII): the
lowered pattern occurs inside the lowered column value. An empty
pattern matches everything. -/
def likeContains (hay pat : String) : Bool :=
  pat == "" || (hay.toLower.splitOn pat.toLower).length != 1

/-- WHERE clause of GET /products (part_000 lines 15-37) and of the
summary route (part_001 lines 162-179, which omits the name clause):
name substring match, exact category match, and the stock-bucket
ranges for `status`. A falsy (absent or empty) query value adds no
clause; an unrecognized status value adds no clause either. -/
def matchesFilter (name category status : Option String) (p : Product) : Bool :=
  (match name with
   | none => true
   | some n => if n = "" then true else likeContains p.name n) &&
  (match category with
   | none => true
   | some c => if c = "" then true else p.category == some c) &&
  (match status with
   | none => true
   | some s =>
     if s = "" then true
     else if s = "out_of_stock" then p.stock == 0
     else if s = "low_stock" then decide (0 < p.stock) && decide (p.stock ≤ 10)
     else if s = "in_stock" then decide (10 < p.stock)
     else true)

/-- Sort-field allow-list of GET /products (part_000 line 40). -/
def allowedSortFields : List String :=
  ["name", "category", "brand", "stock", "status", "created_at", "updated_at"]

/-- Sanitization of the sort field (part_000 line 41): fall back to
"name" for anything outside the allow-list. -/
def sortFieldOf (sort : String) : String :=
  if sort ∈ allowedSortFields then sort else "name"

/-- Direction (part_000 line 42): DESC exactly when the lowered order
parameter is "desc". -/
def descOrder (order : String) : Bool :=
  order.toLower == "desc"

/-- Row comparison for ORDER BY on one column; NULL sorts first, as in
SQLite ascending order. Unrecognized fields never reach this point
(sortFieldOf maps them to "name"). -/
def optStrLe : Option String → Option String → Bool
  | none, _ => true
  | some _, none => false
  | some a, some b => a ≤ b

/-- Column comparison used for ORDER BY ASC. -/
def fieldLe (field : String) (p q : Product) : Bool :=
  if field = "category" then optStrLe p.category q.category
  else if field = "brand" then optStrLe p.brand q.brand
  else if field = "stock" then p.stock ≤ q.stock
  else if field = "status" then p.status ≤ q.status
  else if field = "created_at" then p.created_at ≤ q.created_at
  else if field = "updated_at" then p.updated_at ≤ q.updated_at
  else p.name ≤ q.name

/-- ORDER BY field ASC|DESC as a stable sort of the row list. -/
def sortProducts (field : String) (desc : Bool) (l : List Product) : List Product :=
  l.mergeSort (fun p q => if desc then fieldLe field q p else fieldLe field p q)

/-- Response of GET /products: the page of rows plus the pagination
object. -/
structure ListResult where
  data : List Product
  page : Nat
  limit : Nat
  total : Nat
  pages : Nat
deriving Repr, DecidableEq

/-- Math.ceil(a / b) on naturals, for b > 0. -/
def natCeil (a b : Nat) : Nat := (a + b - 1) / b

/-- GET /products handler (part_000 lines 7-80): filter, ORDER BY the
sanitized field, LIMIT ? OFFSET ? with offset = (page-1)*limit, and a
second COUNT(*) query with the same WHERE clause for the pagination
totals; pages = Math.ceil(total / limit). -/
def listProducts (db : DB) (name category status : Option String)
    (page limit : Nat) (sort order : String) : ListResult :=
  let offset := (page - 1) * limit
  let filtered := db.products.filter (matchesFilter name category status)
  let sorted := sortProducts (sortFieldOf sort) (descOrder order) filtered
  { data := (sorted.drop offset).take limit,
    page := page, limit := limit,
    total := filtered.length,
    pages := natCeil filtered.length limit }

/-- Derived stock bucket, the CASE expression of the summary route
(part_001 lines 196-200): 0 → out_of_stock, ≤ 10 → low_stock,
otherwise in_stock. -/
def stockBucket (stock : Nat) : String :=
  if stock = 0 then "out_of_stock"
  else if stock ≤ 10 then "low_stock"
  else "in_stock"

/-- GROUP BY key, COUNT(*) over a key list, as a distinct-key/count
association list. -/
def groupCounts (keys : List String) : List (String × Nat) :=
  keys.dedup.map (fun k => (k, keys.count k))

/-- The recent-activity COUNT of GET /history/summary (part_001 lines
207-224): history rows with change_date within the 30-day window
(abstracted as change_date ≥ cutoff), additionally restricted by
`product_id IN (SELECT id FROM products WHERE category = ?)` when a
truthy category filter is present. The status query parameter plays no
part in this query. -/
def recentActivityCount (db : DB) (cutoff : Nat) (category : Option String) : Nat :=
  (db.history.filter (fun e =>
    decide (cutoff ≤ e.change_date) &&
    (match category with
     | none => true
     | some c =>
       if c = "" then true
       else db.products.any (fun p => p.id == e.product_id && p.category == some c)))).length

/-- Response of GET /history/summary. -/
structure Summary where
  totalProducts : Nat
  statusDistribution : List (String × Nat)
  stockLevels : List (String × Nat)
  recentActivity : Nat
  totalInventoryValue : Nat
deriving Repr, DecidableEq

/-- GET /history/summary handler (part_001 lines 153-259): all product
aggregates share one WHERE clause built from the category and status
query parameters (the same clauses as the list route, without the name
clause); recentActivity uses its own clause that only ever includes
the category restriction. -/
def getSummary (db : DB) (cutoff : Nat) (category status : Option String) : Summary :=
  let filtered := db.products.filter (matchesFilter none category status)
  { totalProducts := filtered.length,
    statusDistribution := groupCounts (filtered.map (fun p => p.status)),
    stockLevels := groupCounts (filtered.map (fun p => stockBucket p.stock)),
    recentActivity := recentActivityCount db cutoff category,
    totalInventoryValue := (filtered.map (fun p => p.stock)).sum }

/-- Query string of GET /products as the validation layer sees it.
Numeric parameters arrive as strings; here `none` stands for an absent
or empty (checkFalsy-skipped) parameter and `some n` for a parameter
that parses as the integer n. -/
structure SearchQuery where
  name : Option String
  category : Option String
  status : Option String
  page : Option Nat
  limit : Option Nat
  sort : Option String
  order : Option String
deriving Repr, DecidableEq

/-- searchValidationRules (validation middleware): every rule is
`optional(\x7b checkFalsy: true \x7d)`, so falsy values pass; a truthy value
must satisfy its rule — name 1..255 chars, category ≤ 100 chars,
status in the three stock buckets, page ≥ 1, limit 1..100, sort in the
allow-list, order asc|desc. -/
def searchParamsValid (q : SearchQuery) : Bool :=
  (match q.name with
   | none => true
   | some s => s = "" || (1 ≤ s.length && s.length ≤ 255)) &&
  (match q.category with
   | none => true
   | some s => s = "" || s.length ≤ 100) &&
  (match q.status with
   | none => true
   | some s => s = "" || s ∈ ["in_stock", "low_stock", "out_of_stock"]) &&
  (match q.page with
   | none => true
   | some n => 1 ≤ n) &&
  (match q.limit with
   | none => true
   | some n => 1 ≤ n && n ≤ 100) &&
  (match q.sort with
   | none => true
   | some s => s = "" || s ∈ allowedSortFields) &&
  (match q.order with
   | none => true
   | some s => s = "" || s ∈ ["asc", "desc"])

/-- Full GET /products pipeline: the `validate` middleware turns any
rule violation into a 400 response before the handler runs; otherwise
the handler destructures the query with defaults (applied only to
absent parameters) and serves the list. -/
def listProductsRequest (db : DB) (q : SearchQuery) : Except ApiError ListResult :=
  if ¬ searchParamsValid q then .error .validationError
  else
    .ok (listProducts db q.name q.category q.status
      (q.page.getD 1) (q.limit.getD 50)
      (q.sort.getD "name") (q.order.getD "asc"))

/-- One parsed CSV line of POST /import/products. Header-mapped string
cells; a missing cell is `none`. `stock` holds the `parseInt` result
of the stock cell, `none` when it is NaN (missing, empty or
non-numeric cell). -/
structure CsvRow where
  name : Option String
  unit : Option String
  category : Option String
  brand : Option String
  stock : Option Int
  status : Option String
  image : Option String
deriving Repr, DecidableEq

/-- The "Imported from CSV" history row of the importer. -/
def importHistoryRow (id stockN now : Nat) : HistoryEntry :=
  { product_id := id, old_quantity := 0, new_quantity := stockN,
    change_amount := (stockN : Int), change_date := now,
    user_info := none, reason := "Imported from CSV" }

/-- Outcome of one row of the import loop. -/
inductive ImportStep where
  | added (db : DB)
  | skipped (reason : String)
deriving Repr, DecidableEq

/-- Body of the import loop (import.js lines 54-125): a falsy name or
a duplicate name or a negative parsed stock skips the row with a
reason; otherwise INSERT the product (effective stock =
`parseInt(row.stock) || 0`), and INSERT the "Imported from CSV"
history row only when that stock is > 0. -/
def processRow (db : DB) (now : Nat) (row : CsvRow) : ImportStep :=
  if !(jsTruthy row.name) then .skipped "Product name is required"
  else
    let n := row.name.getD ""
    if (findByName db n).isSome then
      .skipped "Product with this name already exists"
    else
      let stock : Int := row.stock.getD 0
      if stock < 0 then .skipped "Stock cannot be negative"
      else
        let p : Product :=
          { id := db.nextId, name := n, unit := jsOrNull row.unit,
            category := jsOrNull row.category, brand := jsOrNull row.brand,
            stock := stock.toNat, status := jsOrDefault row.status "active",
            image := jsOrNull row.image, created_at := now, updated_at := now }
        .added
          { products := db.products ++ [p],
            history :=
              if 0 < stock then
                db.history ++ [importHistoryRow db.nextId stock.toNat now]
              else db.history,
            nextId := db.nextId + 1 }

/-- Response counters of POST /import/products plus the final state;
errors pairs each skipped row's 1-based `processed` index with its
reason. -/
structure ImportResult where
  db : DB
  processed : Nat
  added : Nat
  skipped : Nat
  errors : List (Nat × String)
deriving Repr, DecidableEq

/-- Folding step of the import loop: `processed++` on every row, then
either `added++` or `skipped++` with an error record. -/
def importStepFold (now : Nat) (acc : ImportResult) (row : CsvRow) : ImportResult :=
  match processRow acc.db now row with
  | .added db' =>
    { acc with db := db', processed := acc.processed + 1, added := acc.added + 1 }
  | .skipped r =>
    { acc with
      processed := acc.processed + 1, skipped := acc.skipped + 1,
      errors := acc.errors ++ [(acc.processed + 1, r)] }

/-- POST /import/products row loop over the parsed CSV. -/
def importRows (db : DB) (now : Nat) (rows : List CsvRow) : ImportResult :=
  rows.foldl (importStepFold now) ⟨db, 0, 0, 0, []⟩

/-- CSV cell for a string value: `value || ''`, then quote-and-double
when the (truthy) value contains a comma or a double quote. -/
def csvStrField (s : String) : String :=
  if s = "" then ""
  else if s.contains ',' || s.contains '"' then
    "\"" ++ s.replace "\"" "\"\"" ++ "\""
  else s

/-- CSV cell for a nullable string column: NULL prints as empty. -/
def csvOptField (v : Option String) : String :=
  csvStrField (v.getD "")

/-- CSV cell for a numeric column: `value || ''` prints 0 as empty and
is never quote-escaped (the escape branch requires a string value). -/
def csvNatField (n : Nat) : String :=
  if n = 0 then "" else toString n

/-- One exported CSV line in the export header order
id,name,unit,category,brand,stock,status,image,created_at,updated_at. -/
def productCsvRow (p : Product) : String :=
  String.intercalate ","
    [csvNatField p.id, csvStrField p.name, csvOptField p.unit,
     csvOptField p.category, csvOptField p.brand, csvNatField p.stock,
     csvStrField p.status, csvOptField p.image,
     csvNatField p.created_at, csvNatField p.updated_at]

/-- The rows GET /import/products reads:
SELECT * FROM products ORDER BY name. -/
def exportRows (db : DB) : List Product :=
  sortProducts "name" false db.products

/-- Whole CSV payload: header line then one line per product row. -/
def csvContent (ps : List Product) : String :=
  String.intercalate "\n"
    ("id,name,unit,category,brand,stock,status,image,created_at,updated_at"
      :: ps.map productCsvRow)

/-- GET /import/products handler (import.js lines 176-224): when the
query returns no rows, respond 404 with success:false and the message
"No products found to export"; otherwise build and send the CSV. -/
def exportProducts (db : DB) : Except (Nat × String) String :=
  let ps := exportRows db
  if ps.length = 0 then .error (404, "No products found to export")
  else .ok (csvContent ps)

/-- Finding a freshly appended row by its id succeeds when no earlier
row carries that id. -/
lemma find?_id_append (l : List Product) (p : Product) (n : Nat)
    (hfresh : ∀ q ∈ l, q.id ≠ n) (hp : p.id = n) :
    (l ++ [p]).find? (fun q => q.id == n) = some p := by
  have h0 : l.find? (fun q => q.id == n) = none :=
    List.find?_eq_none.mpr (by intro x hx; simp [hfresh x hx])
  rw [List.find?_append, h0]
  simp [List.find?_cons, hp]

/-- Updating every row with a given id through an id-preserving map
sends the first row found with that id to its image. -/
lemma find?_id_map (l : List Product) (id : Nat) (cur : Product)
    (g : Product → Product) (hg : ∀ p, (g p).id = p.id)
    (h : l.find? (fun p => p.id == id) = some cur) :
    (l.map (fun p => if p.id == id then g p else p)).find?
      (fun p => p.id == id) = some (g cur) := by
  induction l with
  | nil => simp at h
  | cons a t ih =>
    rw [List.map_cons]
    by_cases ha : (a.id == id) = true
    · rw [show List.find? (fun p => p.id == id) (a :: t) = some a from
        List.find?_cons_of_pos t ha] at h
      obtain rfl : a = cur := by simpa using h
      have hga : ((fun p : Product => p.id == id)
          (if (a.id == id) = true then g a else a)) = true := by
        simp only [if_pos ha, hg a]; exact ha
      rw [List.find?_cons_of_pos (p := fun q : Product => q.id == id) _ hga, if_pos ha]
    · rw [show List.find? (fun p => p.id == id) (a :: t) =
          List.find? (fun p => p.id == id) t from
        List.find?_cons_of_neg t ha] at h
      have hga : ¬ ((fun p : Product => p.id == id)
          (if (a.id == id) = true then g a else a)) = true := by
        simp only [if_neg ha]; exact ha
      rw [List.find?_cons_of_neg (p := fun q : Product => q.id == id) _ hga]
      exact ih h

/-- C1: a successful CreateProduct inserts exactly one inventory_history
row for the new product — old_quantity 0, new_quantity and
change_amount both equal to the requested stock (the stock-0 case
included), reason "Initial stock" — and GetProduct on the returned id
immediately afterwards returns a product whose stock equals the
requested stock. The AUTOINCREMENT id is assumed fresh for both
tables. -/
theorem C1_create_inserts_one_history_row
    (db : DB) (now : Nat) (inp : CreateInput) (db' : DB) (ret : Option Product)
    (hfreshP : ∀ p ∈ db.products, p.id ≠ db.nextId)
    (hfreshH : ∀ e ∈ db.history, e.product_id ≠ db.nextId)
    (hok : createProduct db now inp = .ok (db', ret)) :
    ∃ prod, ret = some prod ∧
      prod.stock = inp.stock ∧
      getProduct db' prod.id = some prod ∧
      db'.history.filter (fun e => e.product_id == prod.id) =
        [{ product_id := prod.id, old_quantity := 0, new_quantity := inp.stock,
           change_amount := (inp.stock : Int), change_date := now,
           user_info := none, reason := "Initial stock" }] := by
  unfold createProduct at hok
  by_cases hdup : (findByName db inp.name).isSome
  · simp [hdup] at hok
  · simp only [hdup, if_neg, Bool.false_eq_true, not_false_iff, if_false,
      Except.ok.injEq, Prod.mk.injEq] at hok
    obtain ⟨hdb', hret⟩ := hok
    refine ⟨{ id := db.nextId,
              name := inp.name,
              unit := jsOrNull inp.unit,
              category := jsOrNull inp.category,
              brand := jsOrNull inp.brand,
              stock := inp.stock,
              status := jsOrDefault inp.status "active",
              image := jsOrNull inp.image,
              created_at := now,
              updated_at := now }, ?_, rfl, ?_, ?_⟩
    · rw [← hret]
      exact find?_id_append db.products _ db.nextId hfreshP rfl
    · rw [← hdb']
      exact find?_id_append db.products _ db.nextId hfreshP rfl
    · rw [← hdb']
      show (db.history ++ [initialHistoryRow db.nextId inp.stock now]).filter _ = _
      rw [List.filter_append]
      have h1 : db.history.filter (fun e => e.product_id == db.nextId) = [] :=
        List.filter_eq_nil_iff.mpr (by intro e he; simp [hfreshH e he])
      simp [h1, initialHistoryRow]

/-- C2: a successful UpdateProduct on an existing product appends
exactly one "Manual update" history row — old_quantity = the stock
stored before the update, new_quantity = the supplied stock,
change_amount = their difference — when stock is supplied and differs
from the current stock, and appends no history row when stock is
omitted or equals the current stock. -/
theorem C2_update_stock_history
    (db : DB) (now id : Nat) (inp : UpdateInput) (cur : Product)
    (db' : DB) (ret : Option Product)
    (hcur : getProduct db id = some cur)
    (hok : updateProduct db now id inp = .ok (db', ret)) :
    (∀ v, inp.stock = some v → v ≠ cur.stock →
      db'.history = db.history ++
        [{ product_id := id, old_quantity := cur.stock, new_quantity := v,
           change_amount := (v : Int) - (cur.stock : Int), change_date := now,
           user_info := none, reason := "Manual update" }]) ∧
    (inp.stock = none → db'.history = db.history) ∧
    (inp.stock = some cur.stock → db'.history = db.history) := by
  unfold updateProduct at hok
  rw [hcur] at hok
  by_cases hconf : updateNameConflict db id cur inp.name = true
  · simp [hconf] at hok
  · simp only [hconf, Bool.false_eq_true, if_false, if_neg,
      Except.ok.injEq, Prod.mk.injEq] at hok
    obtain ⟨hdb', hret⟩ := hok
    refine ⟨?_, ?_, ?_⟩
    · intro v hv hne
      rw [← hdb']
      simp [hv, hne, manualHistoryRow]
    · intro hnone
      rw [← hdb']
      simp [hnone]
    · intro hsome
      rw [← hdb']
      simp [hsome]

/-- Pre-state used to witness C2: one product with stock 5. -/
def c2db : DB := ⟨[⟨1, "Pen", none, none, none, 5, "active", none, 10, 10⟩], [], 2⟩

/-- Update request used to witness C2: stock set to 0. -/
def c2inp : UpdateInput := ⟨none, none, none, none, some 0, none, none⟩

/-- Product row after the witness update. -/
def c2merged : Product := ⟨1, "Pen", none, none, none, 0, "active", none, 10, 20⟩

/-- Database state after the witness update. -/
def c2dbAfter : DB := ⟨[c2merged], [⟨1, 5, 0, -5, 20, none, "Manual update"⟩], 2⟩

/-- Witness for C2 at a concrete stock change 5 → 0. -/
theorem C2_update_witness :
    c2dbAfter.history = c2db.history ++
      [{ product_id := 1, old_quantity := 5, new_quantity := 0,
         change_amount := ((0 : Nat) : Int) - ((5 : Nat) : Int), change_date := 20,
         user_info := none, reason := "Manual update" }] :=
  (C2_update_stock_history c2db 20 1 c2inp
    ⟨1, "Pen", none, none, none, 5, "active", none, 10, 10⟩
    c2dbAfter (some c2merged) rfl rfl).1 0 rfl (by decide)

/-- Pre-state used for the C3 counterexample: the stored product has
unit "kg". -/
def c3db : DB := ⟨[⟨1, "Pen", some "kg", none, none, 5, "active", none, 10, 10⟩], [], 2⟩

/-- Update request for the C3 counterexample: unit supplied as the
empty string. -/
def c3inp : UpdateInput := ⟨none, some "", none, none, none, none, none⟩

/-- C3 counterexample: updating with unit = "" (a supplied falsy value)
does not overwrite the stored unit — the route binds `unit || null` and
COALESCE keeps the old "kg", so the claim's "for every supplied value,
including falsy values such as an empty string" fails. -/
theorem C3_counterexample_empty_string :
    c3inp.unit = some "" ∧
    ((updateProduct c3db 20 1 c3inp).toOption.bind (fun r => r.2)).map Product.unit
      = some (some "kg") ∧
    (some "kg" : Option String) ≠ some "" :=
  ⟨rfl, rfl, by decide⟩

/-- C3 (amended): a successful UpdateProduct returns the merge of the
request into the stored row: a supplied truthy value overwrites its
field, an omitted field is unchanged, a supplied empty string on a
string field is treated as absent (the stored value survives), and
stock overwrites by presence — any supplied stock value, 0 included,
is stored. -/
theorem C3_update_merge_semantics
    (db : DB) (now id : Nat) (inp : UpdateInput) (cur : Product)
    (db' : DB) (ret : Option Product)
    (hcur : getProduct db id = some cur)
    (hok : updateProduct db now id inp = .ok (db', ret)) :
    ret = some (mergeRow inp now cur) ∧
    (∀ s, inp.name = some s → s ≠ "" → (mergeRow inp now cur).name = s) ∧
    (inp.name = none → (mergeRow inp now cur).name = cur.name) ∧
    (inp.name = some "" → (mergeRow inp now cur).name = cur.name) ∧
    (∀ s, inp.unit = some s → s ≠ "" → (mergeRow inp now cur).unit = some s) ∧
    (inp.unit = none → (mergeRow inp now cur).unit = cur.unit) ∧
    (inp.unit = some "" → (mergeRow inp now cur).unit = cur.unit) ∧
    (∀ s, inp.category = some s → s ≠ "" → (mergeRow inp now cur).category = some s) ∧
    (inp.category = none → (mergeRow inp now cur).category = cur.category) ∧
    (inp.category = some "" → (mergeRow inp now cur).category = cur.category) ∧
    (∀ s, inp.brand = some s → s ≠ "" → (mergeRow inp now cur).brand = some s) ∧
    (inp.brand = none → (mergeRow inp now cur).brand = cur.brand) ∧
    (inp.brand = some "" → (mergeRow inp now cur).brand = cur.brand) ∧
    (∀ v, inp.stock = some v → (mergeRow inp now cur).stock = v) ∧
    (inp.stock = none → (mergeRow inp now cur).stock = cur.stock) ∧
    (∀ s, inp.status = some s → s ≠ "" → (mergeRow inp now cur).status = s) ∧
    (inp.status = none → (mergeRow inp now cur).status = cur.status) ∧
    (inp.status = some "" → (mergeRow inp now cur).status = cur.status) ∧
    (∀ s, inp.image = some s → s ≠ "" → (mergeRow inp now cur).image = some s) ∧
    (inp.image = none → (mergeRow inp now cur).image = cur.image) ∧
    (inp.image = some "" → (mergeRow inp now cur).image = cur.image) := by
  unfold updateProduct at hok
  rw [hcur] at hok
  by_cases hconf : updateNameConflict db id cur inp.name = true
  · simp [hconf] at hok
  · simp only [hconf, Bool.false_eq_true, if_false, if_neg,
      Except.ok.injEq, Prod.mk.injEq] at hok
    obtain ⟨hdb', hret⟩ := hok
    constructor
    · rw [← hret]
      show getProduct _ id = _
      unfold getProduct
      exact find?_id_map db.products id cur (mergeRow inp now) (fun p => rfl) hcur
    · refine ⟨?_, ?_, ?_, ?_, ?_, ?_, ?_, ?_, ?_, ?_, ?_, ?_, ?_, ?_, ?_, ?_, ?_, ?_, ?_, ?_⟩ <;>
        first
        | (intro s hs hns; simp [mergeRow, jsOrDefault, coalesceOpt, jsOrNull, hs, hns])
        | (intro hs; simp [mergeRow, jsOrDefault, coalesceOpt, jsOrNull, hs])
        | (intro v hv; simp [mergeRow, hv])

/-- Pre-state used to witness C3: stored unit "kg", category "Office". -/
def c3wdb : DB :=
  ⟨[⟨1, "Pen", some "kg", some "Office", none, 5, "active", none, 10, 10⟩], [], 2⟩

/-- Update used to witness C3: truthy name and brand, empty-string
unit, omitted category, stock 0. -/
def c3winp : UpdateInput := ⟨some "Quill", some "", none, some "Acme", some 0, none, none⟩

/-- Stored row the witness update starts from. -/
def c3wcur : Product := ⟨1, "Pen", some "kg", some "Office", none, 5, "active", none, 10, 10⟩

/-- Witness for the amended C3 at a concrete update mixing truthy,
empty-string, omitted and zero-valued fields. -/
theorem C3_update_merge_witness :
    (mergeRow c3winp 20 c3wcur).name = "Quill" ∧
    (mergeRow c3winp 20 c3wcur).unit = c3wcur.unit ∧
    (mergeRow c3winp 20 c3wcur).category = c3wcur.category ∧
    (mergeRow c3winp 20 c3wcur).brand = some "Acme" ∧
    (mergeRow c3winp 20 c3wcur).stock = 0 := by
  have h := C3_update_merge_semantics c3wdb 20 1 c3winp c3wcur
    ⟨[mergeRow c3winp 20 c3wcur], [⟨1, 5, 0, -5, 20, none, "Manual update"⟩], 2⟩
    (some (mergeRow c3winp 20 c3wcur)) rfl (by rfl)
  exact ⟨h.2.1 "Quill" rfl (by decide), h.2.2.2.2.2.2.1 rfl,
    h.2.2.2.2.2.2.2.2.1 rfl, h.2.2.2.2.2.2.2.2.2.2.1 "Acme" rfl (by decide),
    h.2.2.2.2.2.2.2.2.2.2.2.2.2.1 0 rfl⟩

/-- State used to witness C1: an empty database about to receive its
first product, created with requested stock 0. -/
def c1db : DB := ⟨[], [], 1⟩

/-- Create request used to witness C1. -/
def c1inp : CreateInput := ⟨"Pen", none, none, none, 0, none, none⟩

/-- Stored row produced by the witness create call. -/
def c1prod : Product := ⟨1, "Pen", none, none, none, 0, "active", none, 5, 5⟩

/-- Database state after the witness create call. -/
def c1dbAfter : DB := ⟨[c1prod], [⟨1, 0, 0, 0, 5, none, "Initial stock"⟩], 2⟩

/-- Witness for C1 at a concrete creation with stock 0. -/
theorem C1_create_witness :
    ∃ prod, (some c1prod : Option Product) = some prod ∧
      prod.stock = c1inp.stock ∧
      getProduct c1dbAfter prod.id = some prod ∧
      c1dbAfter.history.filter (fun e => e.product_id == prod.id) =
        [{ product_id := prod.id, old_quantity := 0, new_quantity := c1inp.stock,
           change_amount := (c1inp.stock : Int), change_date := 5,
           user_info := none, reason := "Initial stock" }] :=
  C1_create_inserts_one_history_row c1db 5 c1inp c1dbAfter (some c1prod)
    (by intro p hp; simp [c1db] at hp)
    (by intro e he; simp [c1db] at he)
    rfl

/-- Database used by the C4 counterexample and witness. -/
def c4db : DB := ⟨[], [], 1⟩

/-- GET /products query with sort=price, a field outside the
allow-list. -/
def c4query : SearchQuery := ⟨none, none, none, none, none, some "price", none⟩

/-- C4 counterexample: a ListProducts request with sort=price does not
succeed — searchValidationRules runs before the handler and its
`isIn` check on the sort parameter fails, so `validate` answers 400 —
contradicting the claim that the request succeeds with a silent
fall-back to sorting by name. -/
theorem C4_counterexample_price_rejected :
    c4query.sort = some "price" ∧
    "price" ∉ allowedSortFields ∧
    listProductsRequest c4db c4query = .error .validationError ∧
    ApiError.validationError.statusCode = 400 :=
  ⟨rfl, by decide, by rfl, rfl⟩

/-- C4 (amended): a ListProducts request whose sort field is non-empty
and outside the allow-list is rejected by the validation layer with a
400 validation error rather than succeeding; the route-level
sanitization, which maps any value outside the allow-list to "name",
is reachable only for values that pass validation (such as an empty
sort parameter, which is treated as absent by checkFalsy). -/
theorem C4_unrecognized_sort_rejected
    (db : DB) (q : SearchQuery) (s : String)
    (hq : q.sort = some s) (hne : s ≠ "") (hmem : s ∉ allowedSortFields) :
    listProductsRequest db q = .error .validationError ∧
    ApiError.validationError.statusCode = 400 ∧
    sortFieldOf s = "name" := by
  have hval : searchParamsValid q = false := by
    simp [searchParamsValid, hq, hne, hmem]
  refine ⟨?_, rfl, ?_⟩
  · unfold listProductsRequest
    simp [hval]
  · unfold sortFieldOf
    simp [hmem]

/-- Witness for the amended C4 at the concrete rejected sort field
"price". -/
theorem C4_unrecognized_sort_witness :
    listProductsRequest c4db c4query = .error .validationError ∧
    ApiError.validationError.statusCode = 400 ∧
    sortFieldOf "price" = "name" :=
  C4_unrecognized_sort_rejected c4db c4query "price" rfl (by decide) (by decide)

/-- C5: the derived stock buckets partition the non-negative integers —
out_of_stock exactly at 0, low_stock exactly on 0 < stock ≤ 10,
in_stock exactly on stock > 10 — and the ListProducts stock-bucket
filter selects exactly the products of the requested bucket. -/
theorem C5_stock_bucket_filter :
    (∀ n : Nat,
      (stockBucket n = "out_of_stock" ↔ n = 0) ∧
      (stockBucket n = "low_stock" ↔ 0 < n ∧ n ≤ 10) ∧
      (stockBucket n = "in_stock" ↔ 10 < n)) ∧
    (∀ (db : DB) (p : Product),
      (p ∈ db.products.filter (matchesFilter none none (some "out_of_stock")) ↔
        p ∈ db.products ∧ p.stock = 0) ∧
      (p ∈ db.products.filter (matchesFilter none none (some "low_stock")) ↔
        p ∈ db.products ∧ 0 < p.stock ∧ p.stock ≤ 10) ∧
      (p ∈ db.products.filter (matchesFilter none none (some "in_stock")) ↔
        p ∈ db.products ∧ 10 < p.stock)) := by
  constructor
  · intro n
    have hout : stockBucket n = "out_of_stock" ↔ n = 0 := by
      constructor
      · intro h
        by_contra hn
        unfold stockBucket at h
        rw [if_neg hn] at h
        by_cases h10 : n ≤ 10
        · rw [if_pos h10] at h; exact absurd h (by decide)
        · rw [if_neg h10] at h; exact absurd h (by decide)
      · intro h
        unfold stockBucket
        rw [if_pos h]
    have hlow : stockBucket n = "low_stock" ↔ 0 < n ∧ n ≤ 10 := by
      constructor
      · intro h
        unfold stockBucket at h
        by_cases h0 : n = 0
        · rw [if_pos h0] at h; exact absurd h (by decide)
        · rw [if_neg h0] at h
          by_cases h10 : n ≤ 10
          · exact ⟨Nat.pos_of_ne_zero h0, h10⟩
          · rw [if_neg h10] at h; exact absurd h (by decide)
      · intro h
        unfold stockBucket
        rw [if_neg (by omega), if_pos h.2]
    have hin : stockBucket n = "in_stock" ↔ 10 < n := by
      constructor
      · intro h
        unfold stockBucket at h
        by_cases h0 : n = 0
        · rw [if_pos h0] at h; exact absurd h (by decide)
        · rw [if_neg h0] at h
          by_cases h10 : n ≤ 10
          · rw [if_pos h10] at h; exact absurd h (by decide)
          · omega
      · intro h
        unfold stockBucket
        rw [if_neg (by omega), if_neg (by omega)]
    exact ⟨hout, hlow, hin⟩
  · intro db p
    refine ⟨?_, ?_, ?_⟩ <;> simp [List.mem_filter, matchesFilter]

/-- C6: creating a product whose name an existing product already holds
fails with the 409 duplicate-name conflict; updating a product to a
name held by a different product fails the same way; and updating a
product with its own current name passes the uniqueness guard and
succeeds. -/
theorem C6_duplicate_name_conflicts :
    (∀ (db : DB) (now : Nat) (inp : CreateInput) (p : Product),
      p ∈ db.products → p.name = inp.name →
      createProduct db now inp = .error .duplicateName ∧
      ApiError.duplicateName.statusCode = 409) ∧
    (∀ (db : DB) (now id : Nat) (inp : UpdateInput) (cur other : Product) (n : String),
      getProduct db id = some cur → inp.name = some n → n ≠ "" → n ≠ cur.name →
      other ∈ db.products → other.name = n → other.id ≠ id →
      updateProduct db now id inp = .error .duplicateName ∧
      ApiError.duplicateName.statusCode = 409) ∧
    (∀ (db : DB) (now id : Nat) (inp : UpdateInput) (cur : Product),
      getProduct db id = some cur → inp.name = some cur.name →
      ∃ out, updateProduct db now id inp = .ok out) := by
  refine ⟨?_, ?_, ?_⟩
  · intro db now inp p hmem hname
    refine ⟨?_, rfl⟩
    have hdup : (findByName db inp.name).isSome = true := by
      unfold findByName
      exact List.find?_isSome.mpr ⟨p, hmem, by simp [hname]⟩
    unfold createProduct
    rw [if_pos hdup]
  · intro db now id inp cur other n hcur hname hne hnecur hmem honame hoid
    refine ⟨?_, rfl⟩
    have hconf : updateNameConflict db id cur inp.name = true := by
      unfold updateNameConflict
      rw [hname]
      show (if n ≠ "" ∧ n ≠ cur.name then
        (db.products.find? (fun p => p.name == n && p.id != id)).isSome
        else false) = true
      rw [if_pos ⟨hne, hnecur⟩]
      exact List.find?_isSome.mpr ⟨other, hmem, by simp [honame, hoid]⟩
    unfold updateProduct
    rw [hcur]
    simp [hconf]
  · intro db now id inp cur hcur hname
    have hconf : updateNameConflict db id cur inp.name = false := by
      unfold updateNameConflict
      rw [hname]
      simp
    unfold updateProduct
    rw [hcur]
    simp only [hconf, Bool.false_eq_true, if_false]
    exact ⟨_, rfl⟩

/-- Two-product state used to witness C6. -/
def c6db : DB :=
  ⟨[⟨1, "Widget", none, none, none, 3, "active", none, 10, 10⟩,
    ⟨2, "Gadget", none, none, none, 7, "active", none, 11, 11⟩], [], 3⟩

/-- Witness for C6: creating a second "Widget" gives 409, renaming
"Gadget" to "Widget" gives 409, and renaming "Widget" to its own name
succeeds. -/
theorem C6_duplicate_name_witness :
    (createProduct c6db 30 ⟨"Widget", none, none, none, 1, none, none⟩ =
        .error .duplicateName ∧
      ApiError.duplicateName.statusCode = 409) ∧
    (updateProduct c6db 30 2 ⟨some "Widget", none, none, none, none, none, none⟩ =
        .error .duplicateName ∧
      ApiError.duplicateName.statusCode = 409) ∧
    (∃ out, updateProduct c6db 30 1
        ⟨some "Widget", none, none, none, none, none, none⟩ = .ok out) :=
  ⟨C6_duplicate_name_conflicts.1 c6db 30 ⟨"Widget", none, none, none, 1, none, none⟩
      ⟨1, "Widget", none, none, none, 3, "active", none, 10, 10⟩
      (by simp [c6db]) rfl,
    C6_duplicate_name_conflicts.2.1 c6db 30 2
      ⟨some "Widget", none, none, none, none, none, none⟩
      ⟨2, "Gadget", none, none, none, 7, "active", none, 11, 11⟩
      ⟨1, "Widget", none, none, none, 3, "active", none, 10, 10⟩
      "Widget" (by rfl) rfl (by decide) (by decide) (by simp [c6db]) rfl (by decide),
    C6_duplicate_name_conflicts.2.2 c6db 30 1
      ⟨some "Widget", none, none, none, none, none, none⟩
      ⟨1, "Widget", none, none, none, 3, "active", none, 10, 10⟩
      (by rfl) rfl⟩

/-- C7: the recentActivity figure of GetSummary is computed by a query
whose WHERE clause never mentions the status parameter, so two
summaries over the same state that differ only in the status filter
report equal recentActivity counts; an active category filter narrows
the count to history rows of products in that category. -/
theorem C7_recent_activity_ignores_status_filter
    (db : DB) (cutoff : Nat) (category s1 s2 : Option String) :
    (getSummary db cutoff category s1).recentActivity =
      (getSummary db cutoff category s2).recentActivity ∧
    (∀ c, c ≠ "" → category = some c →
      (getSummary db cutoff category s1).recentActivity =
        (db.history.filter (fun e =>
          decide (cutoff ≤ e.change_date) &&
          db.products.any (fun p =>
            p.id == e.product_id && p.category == some c))).length) := by
  constructor
  · rfl
  · intro c hc hcat
    subst hcat
    show recentActivityCount db cutoff (some c) = _
    unfold recentActivityCount
    simp [hc]

/-- One-product state with one history row, used to witness C7. -/
def c7db : DB :=
  ⟨[⟨1, "Pen", none, some "Office", none, 5, "active", none, 100, 100⟩],
   [⟨1, 0, 5, 5, 100, none, "Initial stock"⟩], 2⟩

/-- Witness for C7: out_of_stock versus in_stock status filters leave
recentActivity unchanged, and the category filter form is reached at
category "Office". -/
theorem C7_recent_activity_witness :
    (getSummary c7db 80 (some "Office") (some "out_of_stock")).recentActivity =
      (getSummary c7db 80 (some "Office") (some "in_stock")).recentActivity ∧
    (getSummary c7db 80 (some "Office") (some "out_of_stock")).recentActivity =
      (c7db.history.filter (fun e =>
        decide (80 ≤ e.change_date) &&
        c7db.products.any (fun p =>
          p.id == e.product_id && p.category == some "Office"))).length :=
  ⟨(C7_recent_activity_ignores_status_filter c7db 80 (some "Office")
      (some "out_of_stock") (some "in_stock")).1,
    (C7_recent_activity_ignores_status_filter c7db 80 (some "Office")
      (some "out_of_stock") (some "in_stock")).2 "Office" (by decide) rfl⟩

/-- Ceiling division dominates: b * ceil(a / b) is at least a. -/
lemma le_natCeil_mul (a b : Nat) (hb : 0 < b) : a ≤ natCeil a b * b := by
  by_contra hcon
  push_neg at hcon
  have hsucc : (natCeil a b + 1) * b = natCeil a b * b + b := Nat.succ_mul _ _
  have h1 : (natCeil a b + 1) * b ≤ a + b - 1 := by omega
  have h2 : natCeil a b + 1 ≤ (a + b - 1) / b := (Nat.le_div_iff_mul_le hb).mpr h1
  have h3 : natCeil a b = (a + b - 1) / b := rfl
  omega

/-- C8: the pagination object of ListProducts reports total = the
number of products matching the filter with limit/offset ignored and
pages = ceil(total / limit), and any page beyond pages yields an empty
item list (with the same total, which does not depend on page). -/
theorem C8_pagination_pages
    (db : DB) (name category status : Option String)
    (page limit : Nat) (sort order : String)
    (hlim : 1 ≤ limit) :
    (listProducts db name category status page limit sort order).total =
      (db.products.filter (matchesFilter name category status)).length ∧
    (listProducts db name category status page limit sort order).pages =
      natCeil (db.products.filter (matchesFilter name category status)).length limit ∧
    ((listProducts db name category status page limit sort order).pages < page →
      (listProducts db name category status page limit sort order).data = []) := by
  refine ⟨rfl, rfl, ?_⟩
  intro hpage
  have hpage' :
      natCeil (db.products.filter (matchesFilter name category status)).length limit
        < page := hpage
  have hlen :
      (sortProducts (sortFieldOf sort) (descOrder order)
        (db.products.filter (matchesFilter name category status))).length =
      (db.products.filter (matchesFilter name category status)).length := by
    unfold sortProducts
    exact List.length_mergeSort _
  have hceil :=
    le_natCeil_mul (db.products.filter (matchesFilter name category status)).length
      limit hlim
  have hmul :
      natCeil (db.products.filter (matchesFilter name category status)).length limit
          * limit ≤ (page - 1) * limit :=
    Nat.mul_le_mul_right _ (by omega)
  show ((sortProducts (sortFieldOf sort) (descOrder order)
      (db.products.filter (matchesFilter name category status))).drop
        ((page - 1) * limit)).take limit = []
  rw [List.drop_eq_nil_of_le (by omega), List.take_nil]

/-- One-product state used to witness C8. -/
def c8db : DB := ⟨[⟨1, "Pen", none, none, none, 5, "active", none, 10, 10⟩], [], 2⟩

/-- Witness for C8 at limit 1 and page 5, beyond the single page of
results. -/
theorem C8_pagination_witness :
    (listProducts c8db none none none 5 1 "name" "asc").total =
      (c8db.products.filter (matchesFilter none none none)).length ∧
    (listProducts c8db none none none 5 1 "name" "asc").pages =
      natCeil (c8db.products.filter (matchesFilter none none none)).length 1 ∧
    (listProducts c8db none none none 5 1 "name" "asc").data = [] :=
  ⟨(C8_pagination_pages c8db none none none 5 1 "name" "asc" (by decide)).1,
    (C8_pagination_pages c8db none none none 5 1 "name" "asc" (by decide)).2.1,
    (C8_pagination_pages c8db none none none 5 1 "name" "asc" (by decide)).2.2
      (by decide)⟩

/-- Every row of the import loop bumps processed by exactly one. -/
lemma importFold_processed (now : Nat) (rows : List CsvRow) :
    ∀ acc, (rows.foldl (importStepFold now) acc).processed =
      acc.processed + rows.length := by
  induction rows with
  | nil => intro acc; simp
  | cons r t ih =>
    intro acc
    rw [List.foldl_cons, ih]
    have hstep : (importStepFold now acc r).processed = acc.processed + 1 := by
      unfold importStepFold
      cases processRow acc.db now r <;> rfl
    rw [hstep, List.length_cons]
    omega

/-- Every row of the import loop bumps exactly one of added/skipped. -/
lemma importFold_added_skipped (now : Nat) (rows : List CsvRow) :
    ∀ acc, (rows.foldl (importStepFold now) acc).added +
        (rows.foldl (importStepFold now) acc).skipped =
      acc.added + acc.skipped + rows.length := by
  induction rows with
  | nil => intro acc; simp
  | cons r t ih =>
    intro acc
    rw [List.foldl_cons, ih]
    have hstep : (importStepFold now acc r).added +
        (importStepFold now acc r).skipped = acc.added + acc.skipped + 1 := by
      unfold importStepFold
      cases processRow acc.db now r <;> simp <;> omega
    rw [hstep, List.length_cons]
    omega

/-- Each skipped row of the import loop appends exactly one error
record, and added rows append none. -/
lemma importFold_errors (now : Nat) (rows : List CsvRow) :
    ∀ acc, (rows.foldl (importStepFold now) acc).errors.length + acc.skipped =
      acc.errors.length + (rows.foldl (importStepFold now) acc).skipped := by
  induction rows with
  | nil => intro acc; simp
  | cons r t ih =>
    intro acc
    rw [List.foldl_cons]
    have hih := ih (importStepFold now acc r)
    have hstep : (importStepFold now acc r).skipped + acc.errors.length =
        acc.skipped + (importStepFold now acc r).errors.length := by
      unfold importStepFold
      cases processRow acc.db now r with
      | added db1 => simp
      | skipped msg => simp; omega
    omega

/-- C9: over any parsed CSV the import loop reports
processed = number of rows = added + skipped with one recorded error
per skipped row, and each single row is skipped with the appropriate
reason when its name is falsy, duplicates an existing product name, or
its parsed stock is negative, and is otherwise inserted — with an
"Imported from CSV" history row recorded exactly when the effective
stock (parseInt || 0) is greater than 0. -/
theorem C9_import_row_loop :
    (∀ (db : DB) (now : Nat) (rows : List CsvRow),
      (importRows db now rows).processed = rows.length ∧
      (importRows db now rows).processed =
        (importRows db now rows).added + (importRows db now rows).skipped ∧
      (importRows db now rows).errors.length = (importRows db now rows).skipped) ∧
    (∀ (db : DB) (now : Nat) (row : CsvRow),
      (jsTruthy row.name = false →
        processRow db now row = .skipped "Product name is required") ∧
      (∀ n, row.name = some n → n ≠ "" → (findByName db n).isSome →
        processRow db now row = .skipped "Product with this name already exists") ∧
      (∀ n, row.name = some n → n ≠ "" → findByName db n = none →
        row.stock.getD 0 < 0 →
        processRow db now row = .skipped "Stock cannot be negative") ∧
      (∀ n, row.name = some n → n ≠ "" → findByName db n = none →
        0 ≤ row.stock.getD 0 →
        ∃ p, processRow db now row = .added
            { products := db.products ++ [p],
              history :=
                if 0 < row.stock.getD 0 then
                  db.history ++
                    [{ product_id := db.nextId, old_quantity := 0,
                       new_quantity := (row.stock.getD 0).toNat,
                       change_amount := ((row.stock.getD 0).toNat : Int),
                       change_date := now, user_info := none,
                       reason := "Imported from CSV" }]
                else db.history,
              nextId := db.nextId + 1 } ∧
          p.name = n ∧ p.stock = (row.stock.getD 0).toNat)) := by
  constructor
  · intro db now rows
    have h1 := importFold_processed now rows ⟨db, 0, 0, 0, []⟩
    have h2 := importFold_added_skipped now rows ⟨db, 0, 0, 0, []⟩
    have h3 := importFold_errors now rows ⟨db, 0, 0, 0, []⟩
    simp only [List.length_nil] at h1 h2 h3
    unfold importRows
    refine ⟨by omega, by omega, by omega⟩
  · intro db now row
    refine ⟨?_, ?_, ?_, ?_⟩
    · intro hfal
      unfold processRow
      rw [hfal]
      rfl
    · intro n hn hne hdup
      have htr : jsTruthy row.name = true := by simp [jsTruthy, hn, hne]
      unfold processRow
      rw [htr]
      show (if (findByName db (row.name.getD "")).isSome then _ else _) = _
      rw [hn]
      show (if (findByName db n).isSome then _ else _) = _
      rw [if_pos hdup]
    · intro n hn hne hfind hneg
      have htr : jsTruthy row.name = true := by simp [jsTruthy, hn, hne]
      unfold processRow
      rw [htr]
      show (if (findByName db (row.name.getD "")).isSome then _ else _) = _
      rw [hn]
      show (if (findByName db n).isSome then _ else _) = _
      rw [hfind]
      show (if row.stock.getD 0 < 0 then _ else _) = _
      rw [if_pos hneg]
    · intro n hn hne hfind hpos
      have htr : jsTruthy row.name = true := by simp [jsTruthy, hn, hne]
      refine ⟨{ id := db.nextId,
                name := n,
                unit := jsOrNull row.unit,
                category := jsOrNull row.category,
                brand := jsOrNull row.brand,
                stock := (row.stock.getD 0).toNat,
                status := jsOrDefault row.status "active",
                image := jsOrNull row.image,
                created_at := now,
                updated_at := now }, ?_, rfl, rfl⟩
      unfold processRow
      rw [htr]
      show (if (findByName db (row.name.getD "")).isSome then _ else _) = _
      rw [hn]
      show (if (findByName db n).isSome then _ else _) = _
      rw [hfind]
      show (if row.stock.getD 0 < 0 then _ else _) = _
      rw [if_neg (by omega), importHistoryRow]
      rfl

/-- Pre-existing product list used to witness C9. -/
def c9db : DB := ⟨[⟨1, "Pen", none, none, none, 5, "active", none, 10, 10⟩], [], 2⟩

/-- CSV rows used to witness C9: one insertable row, one duplicate of
"Pen", one nameless row, one negative-stock row. -/
def c9rows : List CsvRow :=
  [⟨some "Ink", none, none, none, some 3, none, none⟩,
   ⟨some "Pen", none, none, none, some 2, none, none⟩,
   ⟨none, none, none, none, some 3, none, none⟩,
   ⟨some "Zed", none, none, none, some (-2), none, none⟩]

/-- Witness for C9 on the concrete four-row import. -/
theorem C9_import_witness :
    ((importRows c9db 40 c9rows).processed = c9rows.length ∧
      (importRows c9db 40 c9rows).processed =
        (importRows c9db 40 c9rows).added + (importRows c9db 40 c9rows).skipped ∧
      (importRows c9db 40 c9rows).errors.length =
        (importRows c9db 40 c9rows).skipped) ∧
    processRow c9db 40 ⟨none, none, none, none, some 3, none, none⟩ =
      .skipped "Product name is required" ∧
    processRow c9db 40 ⟨some "Pen", none, none, none, some 2, none, none⟩ =
      .skipped "Product with this name already exists" ∧
    processRow c9db 40 ⟨some "Zed", none, none, none, some (-2), none, none⟩ =
      .skipped "Stock cannot be negative" ∧
    ∃ p, processRow c9db 40 ⟨some "Ink", none, none, none, some 3, none, none⟩ =
        .added { products := c9db.products ++ [p],
                 history := c9db.history ++
                   [{ product_id := 2, old_quantity := 0, new_quantity := 3,
                      change_amount := 3, change_date := 40,
                      user_info := none, reason := "Imported from CSV" }],
                 nextId := 3 } ∧
      p.name = "Ink" ∧ p.stock = 3 :=
  ⟨C9_import_row_loop.1 c9db 40 c9rows,
    (C9_import_row_loop.2 c9db 40 ⟨none, none, none, none, some 3, none, none⟩).1 rfl,
    (C9_import_row_loop.2 c9db 40
      ⟨some "Pen", none, none, none, some 2, none, none⟩).2.1 "Pen" rfl
      (by decide) (by rfl),
    (C9_import_row_loop.2 c9db 40
      ⟨some "Zed", none, none, none, some (-2), none, none⟩).2.2.1 "Zed" rfl
      (by decide) (by rfl) (by decide),
    (C9_import_row_loop.2 c9db 40
      ⟨some "Ink", none, none, none, some 3, none, none⟩).2.2.2 "Ink" rfl
      (by decide) (by rfl) (by decide)⟩

/-- C10: CSV export answers 404 with success:false and the message
"No products found to export" exactly when the products table is
empty; with at least one product it returns the CSV whose data lines
are the product rows in ascending name order. -/
theorem C10_export_csv (db : DB) :
    (db.products = [] →
      exportProducts db = .error (404, "No products found to export")) ∧
    (db.products ≠ [] →
      exportProducts db = .ok (csvContent (exportRows db)) ∧
      (exportRows db).Perm db.products ∧
      List.Pairwise (fun p q : Product => p.name ≤ q.name) (exportRows db)) := by
  have hlen : (exportRows db).length = db.products.length := by
    unfold exportRows sortProducts
    exact List.length_mergeSort _
  constructor
  · intro h
    unfold exportProducts
    rw [if_pos]
    rw [hlen, h]
    rfl
  · intro h
    refine ⟨?_, ?_, ?_⟩
    · unfold exportProducts
      rw [if_neg]
      intro h0
      apply h
      rw [hlen] at h0
      exact List.length_eq_zero.mp h0
    · unfold exportRows sortProducts
      exact List.mergeSort_perm _ _
    · unfold exportRows sortProducts
      refine List.Pairwise.imp ?_ (List.sorted_mergeSort ?_ ?_ db.products)
      · intro a b hab
        exact of_decide_eq_true hab
      · intro a b c hab hbc
        exact decide_eq_true (le_trans (of_decide_eq_true hab) (of_decide_eq_true hbc))
      · intro a b
        rcases le_total a.name b.name with h1 | h1
        · have : (fieldLe "name" a b) = true := decide_eq_true h1
          simp [this]
        · have : (fieldLe "name" b a) = true := decide_eq_true h1
          simp [this]

/-- Two-product state (names deliberately out of order) used to
witness C10. -/
def c10db : DB :=
  ⟨[⟨1, "Beta", none, none, none, 2, "active", none, 10, 10⟩,
    ⟨2, "Alpha", none, none, none, 4, "active", none, 11, 11⟩], [], 3⟩

/-- Witness for C10: the empty table yields the 404 error, and the
two-product table yields the name-sorted CSV. -/
theorem C10_export_witness :
    exportProducts ⟨[], [], 1⟩ = .error (404, "No products found to export") ∧
    (exportProducts c10db = .ok (csvContent (exportRows c10db)) ∧
      (exportRows c10db).Perm c10db.products ∧
      List.Pairwise (fun p q : Product => p.name ≤ q.name) (exportRows c10db)) :=
  ⟨(C10_export_csv ⟨[], [], 1⟩).1 rfl,
    (C10_export_csv c10db).2 (by decide)⟩
